import Mathlib

/-!
Shallow embedding of the two-wire slave protocol of the interface-board
firmware: the checksum engine `calcCrc` and the frame dispatcher
`TwoWireCallback` of BaseProtocol.cpp, the status and general-call constants
of BaseProtocol.h, and the command table `processCommand` of Main.cpp.

Bytes are naturals and a buffer is a total function from index to byte, so
an in-place write is a pointwise function update.  The uint8 arithmetic of
the source is rendered with explicit reductions modulo 256 where a value
can leave the byte range.  The transport side effects the dispatcher can
trigger (arming the hardware watchdog, resetting the bus address) and the
internal calls it makes (checksum computation, command-table invocation)
are recorded in an effect trace, and the deliberately non-returning spin of
the RESET directive is an explicit `spin` outcome backed by a fuel-indexed
run of the loop.
-/

/-- A caller-owned byte buffer: the byte at each index. -/
abbrev Buf := Nat → Nat

/-- Write value `v` at index `k` of buffer `d` (in-place `d[k] = v`). -/
def setByte (d : Buf) (k v : Nat) : Buf := fun i => if i = k then v else d i

/-- One shift step of avr-libc's crc8 ccitt update (util/crc16.h): shift the
working byte left and xor in the polynomial 0x07 when the top bit was set,
in uint8 arithmetic. -/
def lstep (d : Nat) : Nat :=
  if d &&& 0x80 ≠ 0 then ((d * 2) % 256) ^^^ 0x07 else (d * 2) % 256

/-- Inverse of `lstep` on bytes, used to show the step is injective. -/
def lstepInv (d : Nat) : Nat :=
  if d &&& 0x01 ≠ 0 then ((d ^^^ 0x07) / 2) ||| 0x80 else d / 2

/-- avr-libc's crc8 ccitt update: xor the data byte into the crc and run
eight polynomial shift steps. -/
def crc8_ccitt_update (crc data : Nat) : Nat := lstep^[8] ((crc ^^^ data) % 256)

/-- The loop of `calcCrc` (BaseProtocol.cpp lines 7-12): `crcRun d c i m`
folds the crc accumulator `c` over the `m` bytes `d i`, ..., `d (i+m-1)`. -/
def crcRun (d : Buf) : Nat → Nat → Nat → Nat
  | c, _, 0 => c
  | c, i, m + 1 => crcRun d (crc8_ccitt_update c (d i)) (i + 1) m

/-- `calcCrc(data, len)` from BaseProtocol.cpp: crc over the first `len`
bytes, starting from 0. -/
def calcCrc (data : Buf) (len : Nat) : Nat := crcRun data 0 0 len

-- The bus-visible status codes of BaseProtocol.h.
namespace Status

def COMMAND_OK : Nat := 0x00

def COMMAND_FAILED : Nat := 0x01

def COMMAND_NOT_SUPPORTED : Nat := 0x02

def INVALID_TRANSFER : Nat := 0x03

def INVALID_CRC : Nat := 0x04

def INVALID_ARGUMENTS : Nat := 0x05

/-- Never sent, used internally to indicate no status should be returned. -/
def NO_REPLY : Nat := 0xff

end Status

-- The general-call directives of BaseProtocol.h.
namespace GeneralCallCommands

def RESET : Nat := 0x06

def RESET_ADDRESS : Nat := 0x04

end GeneralCallCommands

/-- avr-libc's code for the 15 ms watchdog timeout (avr/wdt.h). -/
def WDTO_15MS : Nat := 0

/-- `cmd_result` from BaseProtocol.h: a status byte and a declared reply
payload length. -/
structure cmd_result where
  status : Nat
  len : Nat
  deriving DecidableEq

/-- Observable actions of one dispatcher call: arming the hardware
watchdog, invoking the transport's bus-address reset, computing a checksum
over a prefix of the buffer, and invoking the command table on a command
byte. -/
inductive Eff where
  | wdtEnable (timeout : Nat)
  | twiResetAddr
  | crcCalc (len : Nat)
  | procCmd (cmd : Nat)
  deriving DecidableEq

/-- How a dispatcher call ends: returning a length to the transport, or
never returning (the deliberate spin after arming the watchdog). -/
inductive Outcome where
  | ret (n : Nat)
  | spin
  deriving DecidableEq

/-- Result of one dispatcher call: its outcome, the buffer contents after
the call, and the trace of observable actions. -/
structure TWResult where
  out : Outcome
  buf : Buf
  effs : List Eff

/-- The command table may be any function of the shape the dispatcher
calls: command byte, buffer region for payload in and reply out, payload
length, reply capacity; it returns its `cmd_result` together with the
buffer region as it left it. -/
abbrev ProcCmd := Nat → Buf → Nat → Nat → cmd_result × Buf

/-- The common tail of the addressed path (BaseProtocol.cpp lines 52-55):
`data[len] = calcCrc(data, len); ++len; return len;` in uint8 length
arithmetic. -/
def appendCrc (d : Buf) (len : Nat) (es : List Eff) : TWResult :=
  ⟨Outcome.ret ((len + 1) % 256), setByte d len (calcCrc d len),
    es ++ [Eff.crcCalc len]⟩

/-- The fuel-indexed run of the `while(true)` spin in `handleGeneralCall`:
each iteration does nothing and continues, so no amount of fuel makes it
produce a return value. -/
def spinForever : Nat → Option Nat
  | 0 => none
  | fuel + 1 => spinForever fuel

/-- `handleGeneralCall` from BaseProtocol.cpp lines 14-23: on RESET arm the
watchdog and spin forever; on RESET_ADDRESS reset the transport's device
address; otherwise do nothing; return 0 whenever it returns at all. -/
def handleGeneralCall (data : Buf) (len : Nat) : Outcome × List Eff :=
  if 1 ≤ len ∧ data 0 = GeneralCallCommands.RESET then
    (Outcome.spin, [Eff.wdtEnable WDTO_15MS])
  else if 1 ≤ len ∧ data 0 = GeneralCallCommands.RESET_ADDRESS then
    (Outcome.ret 0, [Eff.twiResetAddr])
  else
    (Outcome.ret 0, [])

/-- After `processCommand(data[0], data + 1, len - 2, maxLen - 2)` returns,
the buffer seen through `data` is the untouched command byte at index 0
followed by the region the handler was handed. -/
def mergeBuf (data outb : Buf) : Buf := fun i => if i = 0 then data 0 else outb (i - 1)

/-- The command branch of `TwoWireCallback` (BaseProtocol.cpp lines 43-50):
invoke the command table on the command byte with the payload region, the
payload length and the reply capacity; on NO_REPLY return 0, otherwise
write the returned status over the command byte, take the declared payload
length plus one as the new length (uint8), and fall into the crc-appending
tail. -/
def dispatchCmd (pc : ProcCmd) (data : Buf) (len maxLen : Nat) : TWResult :=
  if (pc (data 0) (fun i => data (i + 1)) (len - 2) (maxLen - 2)).1.status
      = Status.NO_REPLY then
    ⟨Outcome.ret 0,
      mergeBuf data (pc (data 0) (fun i => data (i + 1)) (len - 2) (maxLen - 2)).2,
      [Eff.crcCalc len, Eff.procCmd (data 0)]⟩
  else
    appendCrc
      (setByte
        (mergeBuf data (pc (data 0) (fun i => data (i + 1)) (len - 2) (maxLen - 2)).2)
        0
        (pc (data 0) (fun i => data (i + 1)) (len - 2) (maxLen - 2)).1.status)
      (((pc (data 0) (fun i => data (i + 1)) (len - 2) (maxLen - 2)).1.len + 1) % 256)
      [Eff.crcCalc len, Eff.procCmd (data 0)]

/-- `TwoWireCallback` from BaseProtocol.cpp lines 25-56, parametrised by
the linked-in command table `pc`: address 0 goes to the general-call
handler; `maxLen < 2` aborts silently; `len < 2` replies INVALID_TRANSFER;
a nonzero checksum over the incoming frame replies INVALID_CRC; otherwise
the command branch runs. -/
def TwoWireCallback (pc : ProcCmd) (address : Nat) (data : Buf)
    (len maxLen : Nat) : TWResult :=
  if address = 0 then
    ⟨(handleGeneralCall data len).1, data, (handleGeneralCall data len).2⟩
  else if maxLen < 2 then
    ⟨Outcome.ret 0, data, []⟩
  else if len < 2 then
    appendCrc (setByte data 0 Status.INVALID_TRANSFER) 1 []
  else if calcCrc data len ≠ 0 then
    appendCrc (setByte data 0 Status.INVALID_CRC) 1 [Eff.crcCalc len]
  else
    dispatchCmd pc data len maxLen

-- The command identifiers of Main.cpp.
namespace Commands

def GET_LAST_MEASUREMENT : Nat := 0x80

end Commands

/-- `processCommand` from Main.cpp lines 35-48, with the two stored 16-bit
measurement values passed explicitly.  GET_LAST_MEASUREMENT rejects a
nonempty payload or a reply capacity below 4 with INVALID_ARGUMENTS, and
otherwise writes the two measurements big-endian into the reply region and
declares COMMAND_OK with payload length 4; every other command byte is
COMMAND_NOT_SUPPORTED. -/
def processCommand (m0 m1 : Nat) (cmd : Nat) (dat : Buf) (len maxLen : Nat) :
    cmd_result × Buf :=
  if cmd = Commands.GET_LAST_MEASUREMENT then
    if len ≠ 0 ∨ maxLen < 4 then
      (⟨Status.INVALID_ARGUMENTS, 0⟩, dat)
    else
      (⟨Status.COMMAND_OK, 4⟩,
        setByte (setByte (setByte (setByte dat 0 (m0 / 256 % 256)) 1 (m0 % 256))
          2 (m1 / 256 % 256)) 3 (m1 % 256))
  else
    (⟨Status.COMMAND_NOT_SUPPORTED, 0⟩, dat)

/-! ### Checksum engine lemmas -/

set_option maxRecDepth 4096 in
lemma lstep_lt : ∀ d, d < 256 → lstep d < 256 := by decide

set_option maxRecDepth 4096 in
lemma lstepInv_lstep : ∀ d, d < 256 → lstepInv (lstep d) = d := by decide

lemma lstep_inj {x y : Nat} (hx : x < 256) (hy : y < 256)
    (h : lstep x = lstep y) : x = y := by
  rw [← lstepInv_lstep x hx, ← lstepInv_lstep y hy, h]

lemma lstepIter_lt : ∀ n x, x < 256 → lstep^[n] x < 256
  | 0, _, hx => hx
  | n + 1, x, hx => by
      rw [Function.iterate_succ_apply]
      exact lstepIter_lt n _ (lstep_lt x hx)

lemma lstepIter_inj : ∀ n x y, x < 256 → y < 256 →
    lstep^[n] x = lstep^[n] y → x = y
  | 0, _, _, _, _, h => h
  | n + 1, x, y, hx, hy, h => by
      rw [Function.iterate_succ_apply, Function.iterate_succ_apply] at h
      exact lstep_inj hx hy
        (lstepIter_inj n _ _ (lstep_lt x hx) (lstep_lt y hy) h)

lemma crc8_lt (c b : Nat) : crc8_ccitt_update c b < 256 :=
  lstepIter_lt 8 _ (Nat.mod_lt _ (by omega))

lemma xor_lt_256 {x y : Nat} (hx : x < 256) (hy : y < 256) : x ^^^ y < 256 := by
  have h : x ^^^ y < 2 ^ 8 :=
    Nat.xor_lt_two_pow (n := 8) (by omega) (by omega)
  omega

/-- Feeding the current crc value back in as the data byte yields zero:
the xor cancels and the eight shift steps keep zero at zero. -/
lemma crc8_self (c : Nat) : crc8_ccitt_update c c = 0 := by
  unfold crc8_ccitt_update
  rw [Nat.xor_self]
  decide

lemma crc8_inj_left {c1 c2 b : Nat} (h1 : c1 < 256) (h2 : c2 < 256)
    (hb : b < 256) (h : crc8_ccitt_update c1 b = crc8_ccitt_update c2 b) :
    c1 = c2 := by
  unfold crc8_ccitt_update at h
  rw [Nat.mod_eq_of_lt (xor_lt_256 h1 hb), Nat.mod_eq_of_lt (xor_lt_256 h2 hb)] at h
  have hx := lstepIter_inj 8 _ _ (xor_lt_256 h1 hb) (xor_lt_256 h2 hb) h
  exact Nat.xor_left_injective hx

lemma crc8_inj_right {c b1 b2 : Nat} (hc : c < 256) (h1 : b1 < 256)
    (h2 : b2 < 256) (h : crc8_ccitt_update c b1 = crc8_ccitt_update c b2) :
    b1 = b2 := by
  unfold crc8_ccitt_update at h
  rw [Nat.mod_eq_of_lt (xor_lt_256 hc h1), Nat.mod_eq_of_lt (xor_lt_256 hc h2)] at h
  have hx := lstepIter_inj 8 _ _ (xor_lt_256 hc h1) (xor_lt_256 hc h2) h
  exact Nat.xor_right_injective hx

lemma crcRun_zero (d : Buf) (c i : Nat) : crcRun d c i 0 = c := rfl

lemma crcRun_succ (d : Buf) (c i m : Nat) :
    crcRun d c i (m + 1) = crcRun d (crc8_ccitt_update c (d i)) (i + 1) m := rfl

/-- The crc fold only looks at the bytes it traverses. -/
lemma crcRun_congr : ∀ m (d e : Buf) c i,
    (∀ j, i ≤ j → j < i + m → d j = e j) → crcRun d c i m = crcRun e c i m
  | 0, _, _, _, _, _ => rfl
  | m + 1, d, e, c, i, h => by
      rw [crcRun_succ, crcRun_succ, h i (Nat.le_refl i) (by omega)]
      exact crcRun_congr m d e _ (i + 1) (fun j hj1 hj2 => h j (by omega) (by omega))

/-- Splitting the crc fold at an intermediate point. -/
lemma crcRun_split : ∀ m n (d : Buf) c i,
    crcRun d c i (m + n) = crcRun d (crcRun d c i m) (i + m) n
  | 0, n, d, c, i => by simp [crcRun_zero]
  | m + 1, n, d, c, i => by
      have h : m + 1 + n = (m + n) + 1 := by omega
      rw [h, crcRun_succ, crcRun_succ, crcRun_split m n d _ (i + 1)]
      have h2 : i + 1 + m = i + (m + 1) := by omega
      rw [h2]

lemma crcRun_lt : ∀ m (d : Buf) c i, c < 256 → crcRun d c i m < 256
  | 0, _, _, _, hc => hc
  | m + 1, d, c, i, _ => by
      rw [crcRun_succ]
      exact crcRun_lt m d _ (i + 1) (crc8_lt c (d i))

/-- Distinct in-range accumulators stay distinct over the same byte range. -/
lemma crcRun_ne : ∀ m (d : Buf) c1 c2 i, c1 < 256 → c2 < 256 →
    (∀ j, i ≤ j → j < i + m → d j < 256) → c1 ≠ c2 →
    crcRun d c1 i m ≠ crcRun d c2 i m
  | 0, _, _, _, _, _, _, _, hne => hne
  | m + 1, d, c1, c2, i, h1, h2, hbytes, hne => by
      rw [crcRun_succ, crcRun_succ]
      refine crcRun_ne m d _ _ (i + 1) (crc8_lt c1 (d i)) (crc8_lt c2 (d i))
        (fun j hj1 hj2 => hbytes j (by omega) (by omega)) ?_
      intro heq
      exact hne (crc8_inj_left h1 h2 (hbytes i (Nat.le_refl i) (by omega)) heq)

/-- The crc of a prefix only depends on that prefix. -/
lemma calcCrc_congr (d e : Buf) (n : Nat) (h : ∀ i, i < n → d i = e i) :
    calcCrc d n = calcCrc e n :=
  crcRun_congr n d e 0 0 (fun j _ hj => h j (by omega))

lemma calcCrc_lt (d : Buf) (n : Nat) : calcCrc d n < 256 :=
  crcRun_lt n d 0 0 (by omega)

/-- Peeling the last byte off a crc computation. -/
lemma calcCrc_succ (d : Buf) (n : Nat) :
    calcCrc d (n + 1) = crc8_ccitt_update (calcCrc d n) (d n) := by
  unfold calcCrc
  rw [crcRun_split n 1 d 0 0, crcRun_succ, crcRun_zero, Nat.zero_add]

/-- A write at or past the crc'd range does not change the crc. -/
lemma calcCrc_setByte_ge (d : Buf) (k v n : Nat) (h : n ≤ k) :
    calcCrc (setByte d k v) n = calcCrc d n :=
  calcCrc_congr _ _ n (fun i hi => by
    simp only [setByte]
    rw [if_neg (by omega)])

/-- Appending the crc of the first n bytes as byte n makes the crc over
the n + 1 bytes zero. -/
lemma calcCrc_append (d : Buf) (n : Nat) :
    calcCrc (setByte d n (calcCrc d n)) (n + 1) = 0 := by
  rw [calcCrc_succ, calcCrc_setByte_ge d n (calcCrc d n) n (Nat.le_refl n)]
  have hat : setByte d n (calcCrc d n) n = calcCrc d n := by
    simp [setByte]
  rw [hat]
  exact crc8_self _

/-- A buffer whose byte n is the crc of its first n bytes checksums to
zero over the n + 1 bytes. -/
lemma calcCrc_trailing (d : Buf) (n : Nat) (h : d n = calcCrc d n) :
    calcCrc d (n + 1) = 0 := by
  rw [calcCrc_succ, h]
  exact crc8_self _

/-- Flipping one bit of one byte inside the crc'd range changes the crc. -/
lemma calcCrc_flip_ne (d : Buf) (len k b : Nat) (hk : k < len) (hb : b < 8)
    (hbytes : ∀ i, i < len → d i < 256) :
    calcCrc (setByte d k (d k ^^^ 2 ^ b)) len ≠ calcCrc d len := by
  obtain ⟨t, rfl⟩ : ∃ t, len = k + (t + 1) := ⟨len - k - 1, by omega⟩
  unfold calcCrc
  rw [crcRun_split k (t + 1) (setByte d k (d k ^^^ 2 ^ b)) 0 0,
    crcRun_split k (t + 1) d 0 0, crcRun_succ, crcRun_succ]
  have hpre : crcRun (setByte d k (d k ^^^ 2 ^ b)) 0 0 k = crcRun d 0 0 k :=
    crcRun_congr k _ _ 0 0 (fun j _ hj => by
      simp only [setByte]
      rw [if_neg (by omega)])
  rw [hpre]
  have hek : setByte d k (d k ^^^ 2 ^ b) (0 + k) = d k ^^^ 2 ^ b := by
    simp [setByte]
  rw [hek]
  have htail : crcRun (setByte d k (d k ^^^ 2 ^ b))
      (crc8_ccitt_update (crcRun d 0 0 k) (d k ^^^ 2 ^ b)) (0 + k + 1) t
      = crcRun d
      (crc8_ccitt_update (crcRun d 0 0 k) (d k ^^^ 2 ^ b)) (0 + k + 1) t :=
    crcRun_congr t _ _ _ _ (fun j hj1 hj2 => by
      simp only [setByte]
      rw [if_neg (by omega)])
  rw [htail]
  have hc : crcRun d 0 0 k < 256 := crcRun_lt k d 0 0 (by omega)
  have hdk : d k < 256 := hbytes k (by omega)
  have hpow : 2 ^ b < 256 := by
    calc 2 ^ b ≤ 2 ^ 7 := Nat.pow_le_pow_right (by omega) (by omega)
    _ < 256 := by omega
  have hflt : d k ^^^ 2 ^ b < 256 := xor_lt_256 hdk hpow
  refine crcRun_ne t d _ _ (0 + k + 1) (crc8_lt _ _) (crc8_lt _ _)
    (fun j hj1 hj2 => hbytes j (by omega)) ?_
  intro heq
  have hd0k : d (0 + k) = d k := by rw [Nat.zero_add]
  rw [hd0k] at heq
  have heqb : d k ^^^ 2 ^ b = d k := crc8_inj_right hc hflt hdk heq
  have h0 : d k ^^^ 2 ^ b = d k ^^^ 0 := by rw [Nat.xor_zero, heqb]
  have hzero : (2 : Nat) ^ b = 0 := Nat.xor_right_injective h0
  have hpos : (0 : Nat) < 2 ^ b := pow_pos (by omega) b
  omega

/-! ### Frame dispatcher lemmas -/

lemma setByte_at (d : Buf) (k v : Nat) : setByte d k v k = v := by
  simp [setByte]

lemma setByte_ne (d : Buf) (k v i : Nat) (h : i ≠ k) : setByte d k v i = d i := by
  simp [setByte, h]

lemma mergeBuf_zero (data outb : Buf) : mergeBuf data outb 0 = data 0 := by
  simp [mergeBuf]

lemma mergeBuf_succ (data outb : Buf) (i : Nat) : mergeBuf data outb (i + 1) = outb i := by
  simp [mergeBuf]

/-- The happy path of the addressed branch: a well-formed frame whose
handler result is not NO_REPLY and declares a payload length that fits a
byte after the two framing increments. -/
lemma TwoWireCallback_ok (pc : ProcCmd) (address : Nat) (data : Buf)
    (len maxLen : Nat) (ha : address ≠ 0) (hl : 2 ≤ len) (hm : 2 ≤ maxLen)
    (hcrc : calcCrc data len = 0)
    (hnr : (pc (data 0) (fun i => data (i + 1)) (len - 2) (maxLen - 2)).1.status
      ≠ Status.NO_REPLY)
    (hp : (pc (data 0) (fun i => data (i + 1)) (len - 2) (maxLen - 2)).1.len ≤ 253) :
    (TwoWireCallback pc address data len maxLen).out
      = Outcome.ret ((pc (data 0) (fun i => data (i + 1)) (len - 2) (maxLen - 2)).1.len + 2)
    ∧ (TwoWireCallback pc address data len maxLen).buf 0
      = (pc (data 0) (fun i => data (i + 1)) (len - 2) (maxLen - 2)).1.status
    ∧ (∀ i, i < (pc (data 0) (fun i => data (i + 1)) (len - 2) (maxLen - 2)).1.len →
        (TwoWireCallback pc address data len maxLen).buf (i + 1)
          = (pc (data 0) (fun i => data (i + 1)) (len - 2) (maxLen - 2)).2 i)
    ∧ calcCrc (TwoWireCallback pc address data len maxLen).buf
        ((pc (data 0) (fun i => data (i + 1)) (len - 2) (maxLen - 2)).1.len + 2) = 0 := by
  set pr := pc (data 0) (fun i => data (i + 1)) (len - 2) (maxLen - 2) with hpr
  have hTW : TwoWireCallback pc address data len maxLen = dispatchCmd pc data len maxLen := by
    unfold TwoWireCallback
    rw [if_neg ha, if_neg (by omega : ¬ maxLen < 2), if_neg (by omega : ¬ len < 2),
      if_neg (not_not_intro hcrc)]
  have hD : dispatchCmd pc data len maxLen
      = appendCrc (setByte (mergeBuf data pr.2) 0 pr.1.status) ((pr.1.len + 1) % 256)
          [Eff.crcCalc len, Eff.procCmd (data 0)] := by
    unfold dispatchCmd
    rw [← hpr, if_neg hnr]
  have hmod : (pr.1.len + 1) % 256 = pr.1.len + 1 := Nat.mod_eq_of_lt (by omega)
  rw [hTW, hD, hmod]
  unfold appendCrc
  refine ⟨?_, ?_, ?_, ?_⟩
  · show Outcome.ret ((pr.1.len + 1 + 1) % 256) = Outcome.ret (pr.1.len + 2)
    congr 1
    omega
  · show setByte (setByte (mergeBuf data pr.2) 0 pr.1.status) (pr.1.len + 1)
      (calcCrc (setByte (mergeBuf data pr.2) 0 pr.1.status) (pr.1.len + 1)) 0 = pr.1.status
    rw [setByte_ne _ _ _ _ (by omega), setByte_at]
  · intro i hi
    show setByte (setByte (mergeBuf data pr.2) 0 pr.1.status) (pr.1.len + 1)
      (calcCrc (setByte (mergeBuf data pr.2) 0 pr.1.status) (pr.1.len + 1)) (i + 1) = pr.2 i
    rw [setByte_ne _ _ _ _ (by omega), setByte_ne _ _ _ _ (by omega), mergeBuf_succ]
  · exact calcCrc_append (setByte (mergeBuf data pr.2) 0 pr.1.status) (pr.1.len + 1)

lemma processCommand_len_le (m0 m1 cmd : Nat) (dat : Buf) (len maxLen : Nat) :
    (processCommand m0 m1 cmd dat len maxLen).1.len ≤ 253 := by
  unfold processCommand
  split
  · split
    · show (0 : Nat) ≤ 253
      decide
    · show (4 : Nat) ≤ 253
      decide
  · show (0 : Nat) ≤ 253
    decide

lemma processCommand_status_ne (m0 m1 cmd : Nat) (dat : Buf) (len maxLen : Nat) :
    (processCommand m0 m1 cmd dat len maxLen).1.status ≠ Status.NO_REPLY := by
  unfold processCommand
  split
  · split
    · show Status.INVALID_ARGUMENTS ≠ Status.NO_REPLY
      decide
    · show Status.COMMAND_OK ≠ Status.NO_REPLY
      decide
  · show Status.COMMAND_NOT_SUPPORTED ≠ Status.NO_REPLY
    decide

/-! ### Concrete buffers for witnesses -/

/-- The all-zero buffer; its two-byte frame [0x00, 0x00] is well-formed,
since the crc of a single zero byte is zero. -/
def zeroBuf : Buf := fun _ => 0

/-- A buffer whose first byte is the RESET general-call directive. -/
def rstBuf : Buf := fun _ => GeneralCallCommands.RESET

/-- A buffer whose first byte is the RESET_ADDRESS general-call directive. -/
def raBuf : Buf := fun _ => GeneralCallCommands.RESET_ADDRESS

/-! ### The claims -/

/-- Claim C1: for every addressed call whose frame is well-formed (len and
maxLen at least 2, checksum over all len bytes zero) and whose command byte
the command table of Main.cpp maps to a handler result with status other
than NO_REPLY and declared payload length p, the dispatcher returns p + 2,
the reply's first byte equals the status, bytes 1..p are exactly the
payload the handler wrote, and the checksum over all p + 2 reply bytes is
zero. -/
theorem C1_wellformed_reply (m0 m1 address : Nat) (data : Buf) (len maxLen : Nat)
    (ha : address ≠ 0) (hl : 2 ≤ len) (hm : 2 ≤ maxLen)
    (hcrc : calcCrc data len = 0)
    (hnr : (processCommand m0 m1 (data 0) (fun i => data (i + 1)) (len - 2) (maxLen - 2)).1.status
      ≠ Status.NO_REPLY) :
    (TwoWireCallback (processCommand m0 m1) address data len maxLen).out
      = Outcome.ret
        ((processCommand m0 m1 (data 0) (fun i => data (i + 1)) (len - 2) (maxLen - 2)).1.len + 2)
    ∧ (TwoWireCallback (processCommand m0 m1) address data len maxLen).buf 0
      = (processCommand m0 m1 (data 0) (fun i => data (i + 1)) (len - 2) (maxLen - 2)).1.status
    ∧ (∀ i, i < (processCommand m0 m1 (data 0) (fun i => data (i + 1)) (len - 2) (maxLen - 2)).1.len →
        (TwoWireCallback (processCommand m0 m1) address data len maxLen).buf (i + 1)
          = (processCommand m0 m1 (data 0) (fun i => data (i + 1)) (len - 2) (maxLen - 2)).2 i)
    ∧ calcCrc (TwoWireCallback (processCommand m0 m1) address data len maxLen).buf
        ((processCommand m0 m1 (data 0) (fun i => data (i + 1)) (len - 2) (maxLen - 2)).1.len + 2)
      = 0 :=
  TwoWireCallback_ok (processCommand m0 m1) address data len maxLen ha hl hm hcrc hnr
    (processCommand_len_le m0 m1 _ _ _ _)

/-- Witness for C1 on the concrete well-formed frame [0x00, 0x00] (unknown
command 0, declared payload length 0, status COMMAND_NOT_SUPPORTED). -/
theorem C1_wellformed_reply_witness :
    (TwoWireCallback (processCommand 0x1234 0x5678) 1 zeroBuf 2 2).out = Outcome.ret 2
    ∧ (TwoWireCallback (processCommand 0x1234 0x5678) 1 zeroBuf 2 2).buf 0
      = Status.COMMAND_NOT_SUPPORTED
    ∧ calcCrc (TwoWireCallback (processCommand 0x1234 0x5678) 1 zeroBuf 2 2).buf 2 = 0 := by
  obtain ⟨h1, h2, h3, h4⟩ := C1_wellformed_reply 0x1234 0x5678 1 zeroBuf 2 2
    (by decide) (by decide) (by decide) (by decide) (by decide)
  exact ⟨h1, h2, h4⟩

/-- Claim C2: calcCrc depends only on the first n bytes, appending its
result as byte n makes the checksum over the n + 1 bytes zero, and every
frame whose trailing byte is the checksum of the bytes before it checksums
to zero over its entire length. -/
theorem C2_crc_roundtrip :
    (∀ (d e : Buf) (n : Nat), (∀ i, i < n → d i = e i) → calcCrc d n = calcCrc e n)
    ∧ (∀ (d : Buf) (n : Nat), calcCrc (setByte d n (calcCrc d n)) (n + 1) = 0)
    ∧ (∀ (d : Buf) (n : Nat), d n = calcCrc d n → calcCrc d (n + 1) = 0) :=
  ⟨calcCrc_congr, calcCrc_append, calcCrc_trailing⟩

/-- Witness for C2 at concrete buffers: two buffers agreeing on their first
three bytes, the crc appended to a three-byte prefix, and a trailing crc
byte over an empty prefix. -/
theorem C2_crc_roundtrip_witness :
    calcCrc (fun i => if i < 3 then i else 7) 3 = calcCrc (fun i => if i < 3 then i else 9) 3
    ∧ calcCrc (setByte zeroBuf 3 (calcCrc zeroBuf 3)) 4 = 0
    ∧ calcCrc zeroBuf 1 = 0 :=
  ⟨C2_crc_roundtrip.1 _ _ 3 (by decide),
   C2_crc_roundtrip.2.1 zeroBuf 3,
   C2_crc_roundtrip.2.2 zeroBuf 0 (by decide)⟩

/-- Claim C4: for every addressed call with len below 2 and maxLen at
least 2, the dispatcher returns exactly 2 and the reply is the two bytes
INVALID_TRANSFER and a crc making the checksum over the 2-byte response
zero. -/
theorem C4_short_frame (pc : ProcCmd) (address : Nat) (data : Buf) (len maxLen : Nat)
    (ha : address ≠ 0) (hl : len < 2) (hm : 2 ≤ maxLen) :
    (TwoWireCallback pc address data len maxLen).out = Outcome.ret 2
    ∧ (TwoWireCallback pc address data len maxLen).buf 0 = Status.INVALID_TRANSFER
    ∧ calcCrc (TwoWireCallback pc address data len maxLen).buf 2 = 0 := by
  have hTW : TwoWireCallback pc address data len maxLen
      = appendCrc (setByte data 0 Status.INVALID_TRANSFER) 1 [] := by
    unfold TwoWireCallback
    rw [if_neg ha, if_neg (by omega : ¬ maxLen < 2), if_pos hl]
  rw [hTW]
  unfold appendCrc
  refine ⟨rfl, ?_, ?_⟩
  · show setByte (setByte data 0 Status.INVALID_TRANSFER) 1
      (calcCrc (setByte data 0 Status.INVALID_TRANSFER) 1) 0 = Status.INVALID_TRANSFER
    rw [setByte_ne _ _ _ _ (by omega), setByte_at]
  · exact calcCrc_append (setByte data 0 Status.INVALID_TRANSFER) 1

/-- Witness for C4 on a zero-length frame with capacity 2. -/
theorem C4_short_frame_witness :
    (TwoWireCallback (processCommand 0 0) 1 zeroBuf 0 2).out = Outcome.ret 2
    ∧ (TwoWireCallback (processCommand 0 0) 1 zeroBuf 0 2).buf 0 = Status.INVALID_TRANSFER
    ∧ calcCrc (TwoWireCallback (processCommand 0 0) 1 zeroBuf 0 2).buf 2 = 0 :=
  C4_short_frame (processCommand 0 0) 1 zeroBuf 0 2 (by decide) (by decide) (by decide)

/-- Claim C7: for every addressed call with maxLen below 2, the dispatcher
returns length 0, leaves every byte of the buffer unchanged, and triggers
no action at all. -/
theorem C7_no_capacity (pc : ProcCmd) (address : Nat) (data : Buf) (len maxLen : Nat)
    (ha : address ≠ 0) (hm : maxLen < 2) :
    (TwoWireCallback pc address data len maxLen).out = Outcome.ret 0
    ∧ (∀ i, (TwoWireCallback pc address data len maxLen).buf i = data i)
    ∧ (TwoWireCallback pc address data len maxLen).effs = [] := by
  have hTW : TwoWireCallback pc address data len maxLen = ⟨Outcome.ret 0, data, []⟩ := by
    unfold TwoWireCallback
    rw [if_neg ha, if_pos hm]
  rw [hTW]
  exact ⟨rfl, fun i => rfl, rfl⟩

/-- Witness for C7 at capacity 1. -/
theorem C7_no_capacity_witness :
    (TwoWireCallback (processCommand 0 0) 1 zeroBuf 2 1).out = Outcome.ret 0
    ∧ (TwoWireCallback (processCommand 0 0) 1 zeroBuf 2 1).buf 0 = zeroBuf 0
    ∧ (TwoWireCallback (processCommand 0 0) 1 zeroBuf 2 1).effs = [] := by
  obtain ⟨h1, h2, h3⟩ := C7_no_capacity (processCommand 0 0) 1 zeroBuf 2 1
    (by decide) (by decide)
  exact ⟨h1, h2 0, h3⟩

/-- Claim C3: for every addressed call with len and maxLen at least 2 on a
frame obtained by flipping any single bit of a well-formed frame, the
response status byte is INVALID_CRC (so not INVALID_TRANSFER), the length
returned is 2, and the command table is never invoked. -/
theorem C3_bitflip_invalid_crc (pc : ProcCmd) (address : Nat) (data : Buf)
    (len maxLen k b : Nat) (ha : address ≠ 0) (hl : 2 ≤ len) (hm : 2 ≤ maxLen)
    (hbytes : ∀ i, i < len → data i < 256) (hcrc : calcCrc data len = 0)
    (hk : k < len) (hb : b < 8) :
    (TwoWireCallback pc address (setByte data k (data k ^^^ 2 ^ b)) len maxLen).buf 0
      = Status.INVALID_CRC
    ∧ (TwoWireCallback pc address (setByte data k (data k ^^^ 2 ^ b)) len maxLen).out
      = Outcome.ret 2
    ∧ Status.INVALID_CRC ≠ Status.INVALID_TRANSFER
    ∧ (∀ c, Eff.procCmd c
        ∉ (TwoWireCallback pc address (setByte data k (data k ^^^ 2 ^ b)) len maxLen).effs) := by
  have hne : calcCrc (setByte data k (data k ^^^ 2 ^ b)) len ≠ 0 := by
    rw [← hcrc]
    exact calcCrc_flip_ne data len k b hk hb hbytes
  have hTW : TwoWireCallback pc address (setByte data k (data k ^^^ 2 ^ b)) len maxLen
      = appendCrc (setByte (setByte data k (data k ^^^ 2 ^ b)) 0 Status.INVALID_CRC) 1
          [Eff.crcCalc len] := by
    unfold TwoWireCallback
    rw [if_neg ha, if_neg (by omega : ¬ maxLen < 2), if_neg (by omega : ¬ len < 2), if_pos hne]
  rw [hTW]
  unfold appendCrc
  refine ⟨?_, rfl, by decide, ?_⟩
  · show setByte (setByte (setByte data k (data k ^^^ 2 ^ b)) 0 Status.INVALID_CRC) 1
      (calcCrc (setByte (setByte data k (data k ^^^ 2 ^ b)) 0 Status.INVALID_CRC) 1) 0
      = Status.INVALID_CRC
    rw [setByte_ne _ _ _ _ (by omega), setByte_at]
  · intro c
    show Eff.procCmd c ∉ [Eff.crcCalc len] ++ [Eff.crcCalc 1]
    simp

/-- Witness for C3: flip bit 0 of byte 0 of the well-formed frame
[0x00, 0x00]. -/
theorem C3_bitflip_invalid_crc_witness :
    (TwoWireCallback (processCommand 0 0) 1 (setByte zeroBuf 0 (zeroBuf 0 ^^^ 2 ^ 0)) 2 2).buf 0
      = Status.INVALID_CRC
    ∧ (TwoWireCallback (processCommand 0 0) 1 (setByte zeroBuf 0 (zeroBuf 0 ^^^ 2 ^ 0)) 2 2).out
      = Outcome.ret 2
    ∧ Eff.procCmd 0
      ∉ (TwoWireCallback (processCommand 0 0) 1 (setByte zeroBuf 0 (zeroBuf 0 ^^^ 2 ^ 0)) 2 2).effs := by
  obtain ⟨h1, h2, h3, h4⟩ := C3_bitflip_invalid_crc (processCommand 0 0) 1 zeroBuf 2 2 0 0
    (by decide) (by decide) (by decide) (by decide) (by decide) (by decide) (by decide)
  exact ⟨h1, h2, h4 0⟩

/-- Claim C6: for every addressed call in which the command handler, when
invoked, declares a payload length of at most maxLen - 2 and writes only
inside its declared reply capacity, the length the dispatcher returns is at
most maxLen and the dispatcher writes no byte at any index at or past
maxLen. -/
theorem C6_capacity_bound (pc : ProcCmd) (address : Nat) (data : Buf) (len maxLen : Nat)
    (ha : address ≠ 0) (hcap : maxLen ≤ 255)
    (hp : (pc (data 0) (fun i => data (i + 1)) (len - 2) (maxLen - 2)).1.len ≤ maxLen - 2)
    (hw : ∀ i, maxLen - 2 ≤ i →
      (pc (data 0) (fun i => data (i + 1)) (len - 2) (maxLen - 2)).2 i = data (i + 1)) :
    (∃ r, (TwoWireCallback pc address data len maxLen).out = Outcome.ret r ∧ r ≤ maxLen)
    ∧ (∀ i, maxLen ≤ i → (TwoWireCallback pc address data len maxLen).buf i = data i) := by
  set pr := pc (data 0) (fun i => data (i + 1)) (len - 2) (maxLen - 2) with hpr
  by_cases h1 : maxLen < 2
  · have hTW : TwoWireCallback pc address data len maxLen = ⟨Outcome.ret 0, data, []⟩ := by
      unfold TwoWireCallback
      rw [if_neg ha, if_pos h1]
    rw [hTW]
    exact ⟨⟨0, rfl, by omega⟩, fun i _ => rfl⟩
  · by_cases h2 : len < 2
    · have hTW : TwoWireCallback pc address data len maxLen
          = appendCrc (setByte data 0 Status.INVALID_TRANSFER) 1 [] := by
        unfold TwoWireCallback
        rw [if_neg ha, if_neg h1, if_pos h2]
      rw [hTW]
      unfold appendCrc
      refine ⟨⟨2, rfl, by omega⟩, ?_⟩
      intro i hi
      show setByte (setByte data 0 Status.INVALID_TRANSFER) 1
        (calcCrc (setByte data 0 Status.INVALID_TRANSFER) 1) i = data i
      rw [setByte_ne _ _ _ _ (by omega), setByte_ne _ _ _ _ (by omega)]
    · by_cases h3 : calcCrc data len ≠ 0
      · have hTW : TwoWireCallback pc address data len maxLen
            = appendCrc (setByte data 0 Status.INVALID_CRC) 1 [Eff.crcCalc len] := by
          unfold TwoWireCallback
          rw [if_neg ha, if_neg h1, if_neg h2, if_pos h3]
        rw [hTW]
        unfold appendCrc
        refine ⟨⟨2, rfl, by omega⟩, ?_⟩
        intro i hi
        show setByte (setByte data 0 Status.INVALID_CRC) 1
          (calcCrc (setByte data 0 Status.INVALID_CRC) 1) i = data i
        rw [setByte_ne _ _ _ _ (by omega), setByte_ne _ _ _ _ (by omega)]
      · have hTW : TwoWireCallback pc address data len maxLen = dispatchCmd pc data len maxLen := by
          unfold TwoWireCallback
          rw [if_neg ha, if_neg h1, if_neg h2, if_neg h3]
        by_cases h4 : pr.1.status = Status.NO_REPLY
        · have hD : dispatchCmd pc data len maxLen
              = ⟨Outcome.ret 0, mergeBuf data pr.2, [Eff.crcCalc len, Eff.procCmd (data 0)]⟩ := by
            unfold dispatchCmd
            rw [← hpr, if_pos h4]
          rw [hTW, hD]
          refine ⟨⟨0, rfl, by omega⟩, ?_⟩
          intro i hi
          show mergeBuf data pr.2 i = data i
          obtain ⟨j, rfl⟩ : ∃ j, i = j + 1 := ⟨i - 1, by omega⟩
          rw [mergeBuf_succ, hw j (by omega)]
        · have hD : dispatchCmd pc data len maxLen
              = appendCrc (setByte (mergeBuf data pr.2) 0 pr.1.status) ((pr.1.len + 1) % 256)
                  [Eff.crcCalc len, Eff.procCmd (data 0)] := by
            unfold dispatchCmd
            rw [← hpr, if_neg h4]
          have hmod : (pr.1.len + 1) % 256 = pr.1.len + 1 := Nat.mod_eq_of_lt (by omega)
          rw [hTW, hD, hmod]
          unfold appendCrc
          constructor
          · refine ⟨pr.1.len + 2, ?_, by omega⟩
            show Outcome.ret ((pr.1.len + 1 + 1) % 256) = Outcome.ret (pr.1.len + 2)
            congr 1
            omega
          · intro i hi
            show setByte (setByte (mergeBuf data pr.2) 0 pr.1.status) (pr.1.len + 1)
              (calcCrc (setByte (mergeBuf data pr.2) 0 pr.1.status) (pr.1.len + 1)) i = data i
            rw [setByte_ne _ _ _ _ (by omega), setByte_ne _ _ _ _ (by omega)]
            obtain ⟨j, rfl⟩ : ∃ j, i = j + 1 := ⟨i - 1, by omega⟩
            rw [mergeBuf_succ, hw j (by omega)]

/-- Witness for C6 on the well-formed frame [0x00, 0x00] with capacity 2:
the unknown-command handler declares payload length 0 and writes nothing. -/
theorem C6_capacity_bound_witness :
    (TwoWireCallback (processCommand 0 0) 1 zeroBuf 2 2).buf 2 = zeroBuf 2
    ∧ (TwoWireCallback (processCommand 0 0) 1 zeroBuf 2 2).buf 7 = zeroBuf 7 := by
  obtain ⟨h1, h2⟩ := C6_capacity_bound (processCommand 0 0) 1 zeroBuf 2 2
    (by decide) (by decide) (by decide) (fun i _ => rfl)
  exact ⟨h2 2 (by decide), h2 7 (by decide)⟩

/-- Claim C8: a general call whose first byte is the RESET directive arms
the hardware watchdog and then spins: the outcome is the non-returning
spin, the only action is the watchdog arm, no byte of the buffer changes,
and the spin loop yields no return value under any amount of fuel. -/
theorem C8_reset_spins (pc : ProcCmd) (data : Buf) (len maxLen : Nat)
    (hlen : 1 ≤ len) (hcmd : data 0 = GeneralCallCommands.RESET) :
    (TwoWireCallback pc 0 data len maxLen).out = Outcome.spin
    ∧ (TwoWireCallback pc 0 data len maxLen).effs = [Eff.wdtEnable WDTO_15MS]
    ∧ (∀ i, (TwoWireCallback pc 0 data len maxLen).buf i = data i)
    ∧ (∀ fuel, spinForever fuel = none) := by
  have hG : handleGeneralCall data len = (Outcome.spin, [Eff.wdtEnable WDTO_15MS]) := by
    unfold handleGeneralCall
    rw [if_pos ⟨hlen, hcmd⟩]
  have hTW : TwoWireCallback pc 0 data len maxLen
      = ⟨Outcome.spin, data, [Eff.wdtEnable WDTO_15MS]⟩ := by
    unfold TwoWireCallback
    rw [if_pos rfl, hG]
  rw [hTW]
  refine ⟨rfl, rfl, fun i => rfl, ?_⟩
  intro fuel
  induction fuel with
  | zero => rfl
  | succ n ih => exact ih

/-- Witness for C8 on the one-byte general call [RESET]. -/
theorem C8_reset_spins_witness :
    (TwoWireCallback (processCommand 0 0) 0 rstBuf 1 8).out = Outcome.spin
    ∧ (TwoWireCallback (processCommand 0 0) 0 rstBuf 1 8).effs = [Eff.wdtEnable WDTO_15MS]
    ∧ spinForever 1000 = none := by
  obtain ⟨h1, h2, h3, h4⟩ := C8_reset_spins (processCommand 0 0) rstBuf 1 8
    (by decide) (by decide)
  exact ⟨h1, h2, h4 1000⟩

/-- Claim C9: a general call with RESET_ADDRESS as its first byte triggers
exactly one bus-address reset and returns 0; an empty general call or one
with any other first byte (apart from RESET) does nothing and returns 0;
and no general call ever computes a checksum, invokes the command table,
changes the buffer, or produces a reply. -/
theorem C9_general_call (pc : ProcCmd) (data : Buf) (len maxLen : Nat) :
    (1 ≤ len → data 0 = GeneralCallCommands.RESET_ADDRESS →
      (TwoWireCallback pc 0 data len maxLen).effs = [Eff.twiResetAddr]
      ∧ (TwoWireCallback pc 0 data len maxLen).out = Outcome.ret 0)
    ∧ ((len = 0 ∨ (data 0 ≠ GeneralCallCommands.RESET ∧ data 0 ≠ GeneralCallCommands.RESET_ADDRESS)) →
      (TwoWireCallback pc 0 data len maxLen).effs = []
      ∧ (TwoWireCallback pc 0 data len maxLen).out = Outcome.ret 0)
    ∧ (∀ l, Eff.crcCalc l ∉ (TwoWireCallback pc 0 data len maxLen).effs)
    ∧ (∀ c, Eff.procCmd c ∉ (TwoWireCallback pc 0 data len maxLen).effs)
    ∧ ((TwoWireCallback pc 0 data len maxLen).out = Outcome.ret 0
      ∨ (TwoWireCallback pc 0 data len maxLen).out = Outcome.spin)
    ∧ (∀ i, (TwoWireCallback pc 0 data len maxLen).buf i = data i) := by
  have hTW : TwoWireCallback pc 0 data len maxLen
      = ⟨(handleGeneralCall data len).1, data, (handleGeneralCall data len).2⟩ := by
    unfold TwoWireCallback
    rw [if_pos rfl]
  rw [hTW]
  unfold handleGeneralCall
  by_cases h1 : 1 ≤ len ∧ data 0 = GeneralCallCommands.RESET
  · rw [if_pos h1]
    refine ⟨?_, ?_, fun l => by simp, fun c => by simp, Or.inr rfl, fun i => rfl⟩
    · intro hlen hcmd
      exfalso
      rw [h1.2] at hcmd
      exact absurd hcmd (by decide)
    · intro h
      rcases h with h | h
      · exfalso
        omega
      · exact absurd h1.2 h.1
  · rw [if_neg h1]
    by_cases h2 : 1 ≤ len ∧ data 0 = GeneralCallCommands.RESET_ADDRESS
    · rw [if_pos h2]
      refine ⟨fun _ _ => ⟨rfl, rfl⟩, ?_, fun l => by simp, fun c => by simp, Or.inl rfl,
        fun i => rfl⟩
      intro h
      rcases h with h | h
      · exfalso
        omega
      · exact absurd h2.2 h.2
    · rw [if_neg h2]
      refine ⟨?_, fun _ => ⟨rfl, rfl⟩, fun l => by simp, fun c => by simp, Or.inl rfl,
        fun i => rfl⟩
      intro hlen hcmd
      exact absurd ⟨hlen, hcmd⟩ h2

/-- Witness for C9 on the one-byte general call [RESET_ADDRESS]. -/
theorem C9_general_call_witness :
    (TwoWireCallback (processCommand 0 0) 0 raBuf 1 8).effs = [Eff.twiResetAddr]
    ∧ (TwoWireCallback (processCommand 0 0) 0 raBuf 1 8).out = Outcome.ret 0 :=
  (C9_general_call (processCommand 0 0) raBuf 1 8).1 (by decide) (by decide)

/-- The request [0x80, 0x00] of the spec's concrete scenario: command
GET_LAST_MEASUREMENT with 0x00 as its trailing checksum byte. -/
def reqBad : Buf := fun i => if i = 0 then 0x80 else 0

/-- The same request with the correct trailing checksum byte: the crc of
the single byte 0x80 is 0x89, so the frame [0x80, 0x89] checksums to
zero. -/
def reqGood : Buf := fun i => if i = 0 then 0x80 else if i = 1 then 0x89 else 0

set_option maxRecDepth 8192 in
/-- Claim C5 counterexample: on the addressed request [0x80, 0x00] with
maxLen 6 and stored measurements (0x1234, 0x5678), the dispatcher returns
length 2 with status INVALID_CRC, not length 6 with status COMMAND_OK as
the claim states: the byte 0x00 is not a valid trailing checksum for the
command byte 0x80. -/
theorem C5_concrete_counterexample :
    (TwoWireCallback (processCommand 0x1234 0x5678) 1 reqBad 2 6).out = Outcome.ret 2
    ∧ (TwoWireCallback (processCommand 0x1234 0x5678) 1 reqBad 2 6).buf 0 = Status.INVALID_CRC
    ∧ Outcome.ret 2 ≠ Outcome.ret 6
    ∧ Status.INVALID_CRC ≠ Status.COMMAND_OK := by
  decide

set_option maxRecDepth 8192 in
/-- Claim C5 as amended: the concrete addressed request [0x80, 0x89]
(command GET_LAST_MEASUREMENT with its correct trailing checksum byte
0x89, len 2) with maxLen 6 and stored measurements (0x1234, 0x5678) yields
return length 6 and the reply [COMMAND_OK, 0x12, 0x34, 0x56, 0x78, crc]
whose checksum over all 6 bytes is zero. -/
theorem C5_concrete_amended :
    (TwoWireCallback (processCommand 0x1234 0x5678) 1 reqGood 2 6).out = Outcome.ret 6
    ∧ (TwoWireCallback (processCommand 0x1234 0x5678) 1 reqGood 2 6).buf 0 = Status.COMMAND_OK
    ∧ (TwoWireCallback (processCommand 0x1234 0x5678) 1 reqGood 2 6).buf 1 = 0x12
    ∧ (TwoWireCallback (processCommand 0x1234 0x5678) 1 reqGood 2 6).buf 2 = 0x34
    ∧ (TwoWireCallback (processCommand 0x1234 0x5678) 1 reqGood 2 6).buf 3 = 0x56
    ∧ (TwoWireCallback (processCommand 0x1234 0x5678) 1 reqGood 2 6).buf 4 = 0x78
    ∧ calcCrc (TwoWireCallback (processCommand 0x1234 0x5678) 1 reqGood 2 6).buf 6 = 0 := by
  decide

/-- Claim C10: the bus-visible numeric encodings are the fixed constants of
BaseProtocol.h, and the RESET_ADDRESS directive value coincides with the
INVALID_CRC status value. -/
theorem C10_encodings :
    Status.COMMAND_OK = 0x00
    ∧ Status.COMMAND_FAILED = 0x01
    ∧ Status.COMMAND_NOT_SUPPORTED = 0x02
    ∧ Status.INVALID_TRANSFER = 0x03
    ∧ Status.INVALID_CRC = 0x04
    ∧ Status.INVALID_ARGUMENTS = 0x05
    ∧ Status.NO_REPLY = 0xff
    ∧ GeneralCallCommands.RESET = 0x06
    ∧ GeneralCallCommands.RESET_ADDRESS = 0x04
    ∧ GeneralCallCommands.RESET_ADDRESS = Status.INVALID_CRC := by
  decide
